import Mathlib

/-!
Verification of the OmniHelp multimodal RAG core against its specification.

The Python sources under `services/backend/app/rag/core/` are shallowly
embedded below.  Real numbers computed by the code (similarities, weights,
scores) are modelled as rationals; `round(x, 3)` is modelled by `round3`.
External collaborators (the CLIP embedder, the FAISS dense index, the BM25
ranking function, the LLM and the filesystem) are passed in as explicit
function parameters, exactly where the Python code calls out to them.
-/

namespace OmniHelp

/-- Model of Python `round(x, 3)`: scale by 1000, round to the nearest
integer, and scale back.  (Python uses round-half-to-even; the claims under
verification never hit exact half-way points, so nearest-integer rounding
is a faithful model on every input that matters.) -/
def round3 (x : ℚ) : ℚ := (round (1000 * x) : ℤ) / 1000

theorem round3_nonneg {x : ℚ} (hx : 0 ≤ x) : 0 ≤ round3 x := by
  unfold round3
  have h : (0 : ℤ) ≤ round (1000 * x) := by
    rw [round_eq]
    exact Int.le_floor.mpr (by push_cast; linarith)
  positivity

theorem round3_le_one {x : ℚ} (hx : x ≤ 1) : round3 x ≤ 1 := by
  unfold round3
  have h : round (1000 * x) ≤ (1000 : ℤ) := by
    rw [round_eq]
    have h1 : ⌊1000 * x + 1 / 2⌋ < (1001 : ℤ) := Int.floor_lt.mpr (by push_cast; linarith)
    omega
  rw [div_le_one (by norm_num)]
  exact_mod_cast h

theorem round3_zero : round3 0 = 0 := by norm_num [round3]

theorem round3_one : round3 1 = 1 := by norm_num [round3, round_eq]

/-- A LangChain `Document` as used by the core: its text content and the
`page` / `type` metadata entries that the pipeline reads. -/
structure Document where
  page_content : String
  metaType : String
  page : Nat
deriving Repr, DecidableEq

/-- `utils.filter_documents_by_type`: separate documents into text and
image documents by the `type` metadata field. -/
def filter_documents_by_type (documents : List Document) :
    List Document × List Document :=
  (documents.filter (fun d => d.metaType = "text"),
   documents.filter (fun d => d.metaType = "image"))

/-- Dot product of two embedding vectors (numpy `np.dot` on 1-d arrays). -/
def dot (a b : List ℚ) : ℚ := (List.zipWith (· * ·) a b).sum

theorem dot_nil_right (a : List ℚ) : dot a [] = 0 := by
  cases a <;> simp [dot]

theorem dot_nil_left (b : List ℚ) : dot [] b = 0 := by
  simp [dot]

theorem dot_self_nonneg : (a : List ℚ) → 0 ≤ dot a a
  | [] => le_refl 0
  | x :: xs => by
      have ih := dot_self_nonneg xs
      simp only [dot, List.zipWith_cons_cons, List.sum_cons] at *
      nlinarith [sq_nonneg x]

theorem two_mul_dot_le : (a b : List ℚ) → 2 * dot a b ≤ dot a a + dot b b
  | [], b => by
      have hb := dot_self_nonneg b
      rw [dot_nil_left, dot_nil_left, mul_zero, zero_add]
      exact hb
  | a, [] => by
      have ha := dot_self_nonneg a
      rw [dot_nil_right, dot_nil_right, mul_zero, add_zero]
      exact ha
  | x :: xs, y :: ys => by
      have ih := two_mul_dot_le xs ys
      simp only [dot, List.zipWith_cons_cons, List.sum_cons] at *
      nlinarith [sq_nonneg (x - y)]

/-- For unit-normalized embeddings (self dot product at most 1), every
pairwise dot product is at most 1. -/
theorem dot_le_one {a b : List ℚ} (ha : dot a a ≤ 1) (hb : dot b b ≤ 1) :
    dot a b ≤ 1 := by
  have h := two_mul_dot_le a b
  linarith

/-- `metrics.compute_confidence` (identical to the private copy
`rag_pipeline._compute_confidence`): blend the similarity component (70%)
with the chunk-coverage component (30%, saturating at 5 chunks), rounded
to 3 decimals. -/
def compute_confidence (top_similarity : ℚ) (num_chunks : ℕ) : ℚ :=
  let sim_score := min top_similarity 1
  let chunk_score := min ((num_chunks : ℚ) / 5) 1
  round3 (0.7 * sim_score + 0.3 * chunk_score)

/-- Python `not answer.strip()`: the answer is blank when every character
is whitespace (which also covers the empty answer). -/
def isBlank (s : String) : Bool := s.toList.all Char.isWhitespace

/-- `metrics.compute_answer_source_similarity` (identical to the private
copy `rag_pipeline._compute_answer_source_similarity`): 0.0 when there are
no text chunks or the answer is blank; otherwise the running maximum,
started at 0.0 and updated on strictly greater values, of the dot product
between the answer embedding and each chunk embedding, rounded to
3 decimals.  `embed` stands for the CLIP embedder `embed_text`. -/
def compute_answer_source_similarity (embed : String → List ℚ)
    (answer : String) (text_docs : List Document) : ℚ :=
  if text_docs.isEmpty ∨ isBlank answer then 0
  else
    let answer_emb := embed answer
    let max_sim := text_docs.foldl
      (fun m doc =>
        let sim := dot answer_emb (embed doc.page_content)
        if sim > m then sim else m) 0
    round3 max_sim

/-- The hybrid-search configuration constants of `config.HybridSearchConfig`
that the retrieval and scoring code reads, with their reference defaults.

`HALLUCINATION_THRESHOLD` is modelled from the spec: the constant is read as
`HybridSearchConfig.HALLUCINATION_THRESHOLD` by `rag_pipeline.py` and
`app.py`, but its definition is missing from `config.py` in the source
snapshot; the spec describes it as a tunable constant in [0,1], independent
of `MIN_SIMILARITY_THRESHOLD`. -/
structure HybridSearchConfig where
  HYBRID_SEARCH_ENABLED : Bool := true
  BM25_WEIGHT : ℚ := 0.4
  DENSE_WEIGHT : ℚ := 0.6
  K_TOTAL : ℕ := 5
  K_BM25_CANDIDATES : ℕ := 10
  K_DENSE_CANDIDATES : ℕ := 10
  RRF_K_CONSTANT : ℕ := 60
  MIN_SIMILARITY_THRESHOLD : ℚ := 0.3
  HALLUCINATION_THRESHOLD : ℚ := 0.35
deriving Repr, DecidableEq

/-- The fixed rejection message of `MultiModalRAG.generate`. -/
def insufficientMsg : String :=
  "I don\x27t have enough information in the uploaded documents to answer this question."

/-- The result dictionary returned by `MultiModalRAG.generate`. -/
structure RAGResult where
  answer : String
  sources : List (Nat × String)
  num_images : ℕ
  num_text_chunks : ℕ
  confidence : ℚ
  top_similarity : ℚ
  answer_source_similarity : ℚ
  is_hallucination : Bool
deriving Repr, DecidableEq

/-- `rag_pipeline.MultiModalRAG.generate`, from the point where the
retrieval step has produced `(context_docs, top_similarity)`.  `llm_answer`
stands for `self.llm.invoke([message]).content`, the external generation
collaborator; `embed` is the CLIP embedder used by the grounding check. -/
def generate (cfg : HybridSearchConfig) (embed : String → List ℚ)
    (llm_answer : String) (context_docs : List Document)
    (top_similarity : ℚ) : RAGResult :=
  let fd := filter_documents_by_type context_docs
  let text_docs := fd.1
  let image_docs := fd.2
  let num_text_chunks := text_docs.length
  if top_similarity < cfg.MIN_SIMILARITY_THRESHOLD then
    { answer := insufficientMsg
      sources := []
      num_images := 0
      num_text_chunks := 0
      confidence := 0
      top_similarity := top_similarity
      answer_source_similarity := 0
      is_hallucination := false }
  else
    let confidence := compute_confidence top_similarity num_text_chunks
    let answer_source_similarity :=
      compute_answer_source_similarity embed llm_answer text_docs
    let is_hallucination :=
      decide (answer_source_similarity < cfg.HALLUCINATION_THRESHOLD)
    { answer := llm_answer
      sources := context_docs.map (fun d => (d.page, d.metaType))
      num_images := image_docs.length
      num_text_chunks := num_text_chunks
      confidence := confidence
      top_similarity := top_similarity
      answer_source_similarity := answer_source_similarity
      is_hallucination := is_hallucination }

/-! ## Retrieval and rank fusion -/

/-- Deduplication key used by the fusion step: the first 200 characters of
the chunk content (the content-prefix key the spec documents for the
reference implementation). -/
def dedup_key (d : Document) : String := (d.page_content.toList.take 200).asString

/-- First-occurrence deduplication by key, preserving order (the
`unique_by_key` pass of the fusion step). -/
def uniqueByKey (key : Document → String) : List Document → List Document
  | [] => []
  | d :: ds => d :: uniqueByKey key (ds.filter (fun e => key e != key d))
termination_by l => l.length
decreasing_by
  simp only [List.length_cons]
  exact Nat.lt_succ_of_le (List.length_filter_le _ _)

/-- Contribution of one ranked candidate list to the fused score of the
chunk with deduplication key `k`: every occurrence of the key at 0-based
rank `i` adds `w / (c + i + 1)`.  `r` is the rank of the head of the
remaining list. -/
def rrf_list_score (c w : ℚ) (k : String) : List Document → ℕ → ℚ
  | [], _ => 0
  | d :: ds, r =>
      (if dedup_key d = k then w / (c + r + 1) else 0) +
      rrf_list_score c w k ds (r + 1)

/-- Fused score of the chunk with key `k`: the weighted reciprocal-rank
contributions summed over the candidate lists. -/
def rrf_score (c : ℚ) (pairs : List (ℚ × List Document)) (k : String) : ℚ :=
  pairs.foldl (fun acc p => acc + rrf_list_score c p.1 k p.2 0) 0

/-- Modelled from the spec: LangChain `EnsembleRetriever`
`weighted_reciprocal_rank`, the fusion collaborator invoked by
`hybrid_retriever.retrieve_hybrid` but not part of this repository.  Per the
spec (section 4.3): each candidate list contributes `weight / (RRF_K +
rank + 1)` at 0-based ranks to each chunk it contains, chunks are
de-duplicated by the 200-character content-prefix key keeping first
occurrences, and the distinct chunks are sorted by fused score descending
(a stable sort, modelling Python `sorted`).  The library constant `c`
defaults to 60. -/
def weighted_reciprocal_rank (c : ℚ) (weights : List ℚ)
    (doc_lists : List (List Document)) : List Document :=
  let pairs := weights.zip doc_lists
  let all_docs := doc_lists.foldr (· ++ ·) []
  (uniqueByKey dedup_key all_docs).insertionSort
    (fun a b => rrf_score c pairs (dedup_key b) ≤ rrf_score c pairs (dedup_key a))

/-- `hybrid_retriever.HybridMultiModalRetrieval.retrieve_dense_only`:
query the dense index for the `k` nearest chunks of the query embedding.
`denseSearch` stands for `faiss_store.similarity_search_by_vector` at the
fixed query embedding. -/
def retrieve_dense_only (denseSearch : ℕ → List Document) (k : ℕ) :
    List Document :=
  denseSearch k

/-- `hybrid_retriever.HybridMultiModalRetrieval.retrieve_hybrid`: with no
BM25 retriever, fall back to dense-only search; otherwise fetch
`K_DENSE_CANDIDATES` dense candidates, fuse them with the BM25 candidates
through the ensemble fusion (weights `[BM25_WEIGHT, DENSE_WEIGHT]`, and no
RRF constant argument, so the fusion runs at the library default 60), and
keep the top `k`. -/
def retrieve_hybrid (cfg : HybridSearchConfig)
    (denseSearch : ℕ → List Document)
    (bm25_retriever : Option (String → List Document))
    (query : String) (k : ℕ) : List Document :=
  match bm25_retriever with
  | none => retrieve_dense_only denseSearch k
  | some bm25 =>
      let dense_docs := denseSearch cfg.K_DENSE_CANDIDATES
      (weighted_reciprocal_rank 60 [cfg.BM25_WEIGHT, cfg.DENSE_WEIGHT]
        [bm25 query, dense_docs]).take k

/-- `hybrid_retriever.HybridMultiModalRetrieval.retrieve_multimodal`:
choose the hybrid path when both the per-query flag and the configuration
flag allow it, dense-only otherwise. -/
def hybrid_retrieve_multimodal (cfg : HybridSearchConfig)
    (denseSearch : ℕ → List Document)
    (bm25_retriever : Option (String → List Document))
    (query : String) (k : ℕ) (use_hybrid : Bool) : List Document :=
  if use_hybrid && cfg.HYBRID_SEARCH_ENABLED then
    retrieve_hybrid cfg denseSearch bm25_retriever query k
  else
    retrieve_dense_only denseSearch k

/-- `vectorstore.VectorStore.create_bm25_retriever`: with no text documents
return `None`; otherwise build the BM25 retriever from the text documents.
`bm25_from_documents` stands for `BM25Retriever.from_documents` (an external
collaborator), as the query-answering function it yields. -/
def create_bm25_retriever
    (bm25_from_documents : List Document → String → List Document)
    (text_docs : List Document) : Option (String → List Document) :=
  if text_docs.isEmpty then none
  else some (bm25_from_documents text_docs)

/-! ## Retrieval step with top similarity (spec-modelled)

`rag_pipeline.MultiModalRAG.generate` and `rag_manager` construct
`MultiModalRetrieval` with `bm25_retriever` and `use_hybrid` arguments and
read a `{docs, top_similarity}` dictionary from `retrieve_multimodal`; the
`core/retriever.py` present in the source snapshot is a stale version with
neither.  The retrieval step below is therefore modelled from the spec. -/

/-- The similarity normalization of spec section 4.1: a raw L2 distance `d`
maps to `s = 1 / (1 + d)` (this exact transform also appears in
`app.py` for the streaming endpoint). -/
def normalize_similarity (d : ℚ) : ℚ := 1 / (1 + d)

/-- Modelled from the spec: the retrieval step of the pipeline
(`MultiModalRetrieval.retrieve_multimodal` as its callers and tests use it,
missing from the source snapshot).  It returns the ranked documents of
whichever fusion path executed, together with `top_similarity` computed
independently of the path: re-query the dense index with `k = 1` at the
query embedding and normalize the nearest distance via section 4.1's
mapping, or 0.0 when the index returns nothing.
`denseSearchWithScore` stands for
`faiss_store.similarity_search_with_score_by_vector` at the fixed query
embedding. -/
def retrieve_multimodal_with_similarity (cfg : HybridSearchConfig)
    (denseSearch : ℕ → List Document)
    (denseSearchWithScore : ℕ → List (Document × ℚ))
    (bm25_retriever : Option (String → List Document))
    (query : String) (k : ℕ) (use_hybrid : Bool) :
    List Document × ℚ :=
  let docs := hybrid_retrieve_multimodal cfg denseSearch bm25_retriever query k use_hybrid
  let top_similarity :=
    match denseSearchWithScore 1 with
    | [] => 0
    | (_, dist) :: _ => normalize_similarity dist
  (docs, top_similarity)

/-! ## Persistence -/

/-- What the per-slot snapshot location can hold, as seen through
deserialization: no snapshot (`index.faiss` absent), a snapshot whose
deserialization raises, or a successful load exposing the docstore
documents and the optional `images.json` content. -/
inductive SnapshotState where
  | missing
  | corrupt
  | ok (docstore_docs : List Document) (images : Option (List (String × String)))

/-- The dictionary returned by `storage.load_index` on success. -/
structure LoadedIndex where
  faiss_docs : List Document
  bm25_retriever : Option (String → List Document)
  image_data_store : List (String × String)

/-- `storage.load_index`: return `None` when no snapshot exists for the
slot; catch any deserialization failure and also return `None`; on success
rebuild the BM25 retriever from the text chunks of the deserialized FAISS
docstore (no separate persisted lexical structure) and load the image map
(empty when `images.json` is absent).

The filesystem, `FAISS.load_local` and `json.loads` are modelled by the
`disk` oracle.  The per-slot directory `Path(AppConfig.DATA_DIR) /
index_type` is folded into the oracle key: `AppConfig.DATA_DIR` is read by
`storage.py` and `database.py` but its definition is missing from
`config.py` in the source snapshot, so the location is modelled from the
spec (one directory per slot). -/
def load_index (disk : String → SnapshotState)
    (bm25_from_documents : List Document → String → List Document)
    (index_type : String) : Option LoadedIndex :=
  match disk index_type with
  | .missing => none
  | .corrupt => none
  | .ok docs images =>
      let image_data_store := images.getD []
      let all_text_docs := docs.filter (fun d => d.metaType = "text")
      let bm25 :=
        if all_text_docs.isEmpty then none
        else some (bm25_from_documents all_text_docs)
      some ⟨docs, bm25, image_data_store⟩

/-! ## Specification-side definitions for the fusion claim -/

/-- 0-based rank of the first chunk of `l` sharing the deduplication key
of `d`, when present. -/
def rank_in (l : List Document) (d : Document) : Option ℕ :=
  l.findIdx? (fun e => dedup_key e == dedup_key d)

/-- The fused score exactly as claim C3 words it: the sum over the two
candidate lists of `weight(list) / (RRF_K + rank_in_list + 1)` with 0-based
ranks, a chunk absent from a list contributing 0 for that list, at the
configured `RRF_K_CONSTANT`. -/
def spec_fused_score (rrf_k : ℕ) (w_lexical w_dense : ℚ)
    (lex dense : List Document) (d : Document) : ℚ :=
  (match rank_in lex d with
   | some r => w_lexical / ((rrf_k : ℚ) + r + 1)
   | none => 0) +
  (match rank_in dense d with
   | some r => w_dense / ((rrf_k : ℚ) + r + 1)
   | none => 0)

/-- The hybrid result as claim C3 words it: the distinct chunks of the two
candidate lists sorted by `spec_fused_score` (at `RRF_K_CONSTANT`)
descending, truncated to the top `k`. -/
def spec_claimed_hybrid (cfg : HybridSearchConfig)
    (lex dense : List Document) (k : ℕ) : List Document :=
  ((uniqueByKey dedup_key (lex ++ dense)).insertionSort
    (fun a b =>
      spec_fused_score cfg.RRF_K_CONSTANT cfg.BM25_WEIGHT cfg.DENSE_WEIGHT lex dense b ≤
      spec_fused_score cfg.RRF_K_CONSTANT cfg.BM25_WEIGHT cfg.DENSE_WEIGHT lex dense a)).take k

/-! ## Helper lemmas -/

theorem foldl_simstep_eq_max (f : Document → ℚ) (docs : List Document) :
    ∀ a : ℚ,
      docs.foldl (fun m doc => if f doc > m then f doc else m) a =
      docs.foldl (fun m doc => max m (f doc)) a := by
  induction docs with
  | nil => intro a; rfl
  | cons d ds ih =>
      intro a
      simp only [List.foldl_cons]
      rw [ih]
      congr 1
      by_cases h : f d > a
      · rw [if_pos h, max_eq_right h.le]
      · rw [if_neg h, max_eq_left (le_of_not_lt h)]

theorem foldl_max_bounds (f : Document → ℚ) (hle : ∀ d, f d ≤ 1) :
    ∀ (docs : List Document) (a : ℚ), 0 ≤ a → a ≤ 1 →
      0 ≤ docs.foldl (fun m doc => max m (f doc)) a ∧
      docs.foldl (fun m doc => max m (f doc)) a ≤ 1 := by
  intro docs
  induction docs with
  | nil => intro a h0 h2; exact ⟨h0, h2⟩
  | cons d ds ih =>
      intro a h0 h1
      simp only [List.foldl_cons]
      exact ih (max a (f d)) (le_trans h0 (le_max_left _ _)) (max_le h1 (hle d))

theorem foldl_simstep_neg (f : Document → ℚ) :
    ∀ (docs : List Document), (∀ d ∈ docs, f d < 0) →
      docs.foldl (fun m doc => if f doc > m then f doc else m) 0 = 0 := by
  intro docs
  induction docs with
  | nil => intro _; rfl
  | cons d ds ih =>
      intro h
      simp only [List.foldl_cons]
      rw [if_neg (by
        have := h d (List.mem_cons_self d ds)
        intro hc
        linarith)]
      exact ih (fun e he => h e (List.mem_cons_of_mem d he))

/-! ## C7: confidence scorer -/

/-- C7: for every `top_similarity` in [0,1] and every chunk count,
`compute_confidence` equals `0.7 * min(top_similarity, 1) +
0.3 * min(num_chunks / 5, 1)` rounded to 3 decimals, the result is always
in [0,1], `compute_confidence 1 5 = 1`, and `compute_confidence 0 0 = 0`. -/
theorem compute_confidence_spec (ts : ℚ) (n : ℕ) (h0 : 0 ≤ ts) (h1 : ts ≤ 1) :
    compute_confidence ts n =
      round3 (0.7 * min ts 1 + 0.3 * min ((n : ℚ) / 5) 1) ∧
    0 ≤ compute_confidence ts n ∧ compute_confidence ts n ≤ 1 ∧
    compute_confidence 1 5 = 1 ∧ compute_confidence 0 0 = 0 := by
  have he : compute_confidence ts n =
      round3 (0.7 * min ts 1 + 0.3 * min ((n : ℚ) / 5) 1) := rfl
  have hs0 : 0 ≤ min ts 1 := le_min h0 zero_le_one
  have hs1 : min ts 1 ≤ 1 := le_trans (min_le_left ts 1) h1
  have hc0 : 0 ≤ min ((n : ℚ) / 5) 1 := le_min (by positivity) zero_le_one
  have hc1 : min ((n : ℚ) / 5) 1 ≤ 1 := min_le_right _ _
  refine ⟨he, ?_, ?_, ?_, ?_⟩
  · rw [he]
    exact round3_nonneg (by nlinarith)
  · rw [he]
    exact round3_le_one (by nlinarith)
  · norm_num [compute_confidence, round3, round_eq]
  · norm_num [compute_confidence, round3, round_eq]

/-- C7 witness at `top_similarity = 1/2`, `num_chunks = 2`. -/
theorem compute_confidence_spec_witness :
    (0 ≤ (1 / 2 : ℚ) ∧ (1 / 2 : ℚ) ≤ 1) ∧
    (compute_confidence (1 / 2) 2 =
      round3 (0.7 * min (1 / 2 : ℚ) 1 + 0.3 * min ((2 : ℚ) / 5) 1) ∧
    0 ≤ compute_confidence (1 / 2) 2 ∧ compute_confidence (1 / 2) 2 ≤ 1 ∧
    compute_confidence 1 5 = 1 ∧ compute_confidence 0 0 = 0) :=
  ⟨⟨by norm_num, by norm_num⟩,
   compute_confidence_spec (1 / 2) 2 (by norm_num) (by norm_num)⟩

/-! ## C1: admission guardrail -/

/-- C1: a query is admitted exactly when `top_similarity` reaches
`MIN_SIMILARITY_THRESHOLD` (closed lower bound).  Below the threshold the
pipeline short-circuits: for every possible LLM answer it returns the
fixed insufficient-information outcome with `num_text_chunks = 0`,
`num_images = 0`, `confidence = 0`, `answer_source_similarity = 0`,
`is_hallucination = false` and the measured `top_similarity`; at or above
the threshold the generated answer is returned. -/
theorem generate_guardrail (cfg : HybridSearchConfig) (embed : String → List ℚ)
    (llm_answer : String) (context_docs : List Document) (ts : ℚ) :
    (ts < cfg.MIN_SIMILARITY_THRESHOLD →
      generate cfg embed llm_answer context_docs ts =
        { answer := insufficientMsg
          sources := []
          num_images := 0
          num_text_chunks := 0
          confidence := 0
          top_similarity := ts
          answer_source_similarity := 0
          is_hallucination := false }) ∧
    (cfg.MIN_SIMILARITY_THRESHOLD ≤ ts →
      (generate cfg embed llm_answer context_docs ts).answer = llm_answer) := by
  constructor
  · intro h
    simp only [generate, if_pos h]
  · intro h
    simp only [generate, if_neg (not_lt.mpr h)]

/-- A trivial embedder used by concrete witnesses. -/
def embedOne : String → List ℚ := fun _ => [1]

/-- C1 witness: with the default configuration (threshold 0.3), a
similarity of exactly 0.3 is admitted (boundary case) and a similarity of
0.2 yields the fixed rejection outcome. -/
theorem generate_guardrail_witness :
    (generate {} embedOne "ok" [] (3 / 10)).answer = "ok" ∧
    generate {} embedOne "ok" [] (1 / 5) =
      { answer := insufficientMsg
        sources := []
        num_images := 0
        num_text_chunks := 0
        confidence := 0
        top_similarity := 1 / 5
        answer_source_similarity := 0
        is_hallucination := false } :=
  ⟨(generate_guardrail {} embedOne "ok" [] (3 / 10)).2 (by norm_num),
   (generate_guardrail {} embedOne "ok" [] (1 / 5)).1 (by norm_num)⟩

/-! ## C4: hallucination flag -/

/-- C4: on the admitted path, `is_hallucination` is exactly the comparison
`answer_source_similarity < HALLUCINATION_THRESHOLD`, where the grounding
score is computed from the generated answer and the retrieved text chunks;
the flag is advisory: the generated answer is returned alongside it.  The
outcome does not depend on `MIN_SIMILARITY_THRESHOLD` as long as the query
stays admitted. -/
theorem hallucination_flag_advisory (cfg : HybridSearchConfig)
    (embed : String → List ℚ) (llm_answer : String)
    (context_docs : List Document) (ts : ℚ)
    (h : cfg.MIN_SIMILARITY_THRESHOLD ≤ ts) :
    ((generate cfg embed llm_answer context_docs ts).is_hallucination =
      decide ((generate cfg embed llm_answer context_docs ts).answer_source_similarity <
        cfg.HALLUCINATION_THRESHOLD)) ∧
    (generate cfg embed llm_answer context_docs ts).answer_source_similarity =
      compute_answer_source_similarity embed llm_answer
        (context_docs.filter (fun d => d.metaType = "text")) ∧
    (generate cfg embed llm_answer context_docs ts).answer = llm_answer ∧
    ∀ m : ℚ, m ≤ ts →
      generate { cfg with MIN_SIMILARITY_THRESHOLD := m } embed llm_answer context_docs ts =
        generate cfg embed llm_answer context_docs ts := by
  refine ⟨?_, ?_, ?_, ?_⟩
  · simp only [generate, if_neg (not_lt.mpr h)]
  · simp only [generate, if_neg (not_lt.mpr h), filter_documents_by_type]
  · simp only [generate, if_neg (not_lt.mpr h)]
  · intro m hm
    simp only [generate, if_neg (not_lt.mpr h), if_neg (not_lt.mpr hm)]

/-- C4 witness at the default configuration, threshold boundary 0.3. -/
theorem hallucination_flag_advisory_witness :
    ({} : HybridSearchConfig).MIN_SIMILARITY_THRESHOLD ≤ (1 / 2 : ℚ) ∧
    (generate {} embedOne "ok" [] (1 / 2)).answer = "ok" :=
  ⟨by norm_num, (hallucination_flag_advisory {} embedOne "ok" [] (1 / 2)
    (by norm_num)).2.2.1⟩

/-! ## C10: grounding clamp at zero -/

/-- C10: for a non-blank answer and a non-empty chunk list, the running
maximum starts at 0 and only updates on strictly greater values, so when
the dot product with every chunk embedding is negative the returned
grounding score is 0, not a negative similarity. -/
theorem grounding_clamped_at_zero (embed : String → List ℚ) (answer : String)
    (docs : List Document) (hb : isBlank answer = false) (hne : docs ≠ [])
    (hneg : ∀ d ∈ docs, dot (embed answer) (embed d.page_content) < 0) :
    compute_answer_source_similarity embed answer docs = 0 := by
  unfold compute_answer_source_similarity
  rw [if_neg (by simp [hb, hne])]
  simp only []
  rw [foldl_simstep_neg (fun doc => dot (embed answer) (embed doc.page_content)) docs hneg]
  exact round3_zero

/-- An embedder whose answer and chunk embeddings point in opposite
directions (all embeddings unit-normalized). -/
def embedNeg : String → List ℚ := fun s => if s = "ans" then [1] else [-1]

/-- The single text chunk used by the grounding counterexample and the
C10 witness. -/
def docNeg : Document := ⟨"src", "text", 1⟩

/-- C10 witness: answer embedding `[1]`, single chunk embedding `[-1]`,
dot product `-1 < 0`, grounding score 0. -/
theorem grounding_clamped_at_zero_witness :
    (isBlank "ans" = false ∧
      dot (embedNeg "ans") (embedNeg docNeg.page_content) = -1) ∧
    compute_answer_source_similarity embedNeg "ans" [docNeg] = 0 := by
  refine ⟨⟨by decide, by norm_num +decide [dot, embedNeg, docNeg]⟩, ?_⟩
  exact grounding_clamped_at_zero embedNeg "ans" [docNeg] (by decide)
    (by decide)
    (by
      intro d hd
      rw [List.mem_singleton] at hd
      subst hd
      norm_num +decide [dot, embedNeg, docNeg])

/-! ## C8: grounding verifier (corrected) -/

/-- C8 counterexample: with unit-normalized embeddings whose dot product
is negative, the claimed value (the maximum over the text chunks of the
dot product, rounded) is `-1`, but the code returns 0: the running maximum
is clamped at 0 from below, so the function does not return the maximum of
the per-chunk dot products. -/
theorem grounding_verifier_counterexample :
    compute_answer_source_similarity embedNeg "ans" [docNeg] = 0 ∧
    round3 (dot (embedNeg "ans") (embedNeg docNeg.page_content)) = -1 ∧
    dot (embedNeg "ans") (embedNeg "ans") ≤ 1 ∧
    dot (embedNeg docNeg.page_content) (embedNeg docNeg.page_content) ≤ 1 ∧
    compute_answer_source_similarity embedNeg "ans" [docNeg] ≠
      round3 (dot (embedNeg "ans") (embedNeg docNeg.page_content)) := by
  refine ⟨?_, ?_, ?_, ?_, ?_⟩
  · norm_num +decide [compute_answer_source_similarity, isBlank, dot, embedNeg, docNeg,
      List.foldl_cons, List.foldl_nil, round3, round_eq]
  · norm_num +decide [dot, embedNeg, docNeg, round3, round_eq]
  · norm_num +decide [dot, embedNeg]
  · norm_num +decide [dot, embedNeg, docNeg]
  · norm_num +decide [compute_answer_source_similarity, isBlank, dot, embedNeg, docNeg,
      List.foldl_cons, List.foldl_nil, round3, round_eq]

/-- C8 amended: `compute_answer_source_similarity` returns 0 when the
chunk list is empty or the answer is blank; otherwise it returns the
maximum of 0 and the per-chunk dot products (the running maximum starts at
0), rounded to 3 decimals; for unit-normalized embeddings the result lies
in [0,1]. -/
theorem grounding_verifier_amended (embed : String → List ℚ) (answer : String)
    (docs : List Document) (hunit : ∀ s, dot (embed s) (embed s) ≤ 1) :
    (docs = [] → compute_answer_source_similarity embed answer docs = 0) ∧
    (isBlank answer = true → compute_answer_source_similarity embed answer docs = 0) ∧
    (docs ≠ [] → isBlank answer = false →
      compute_answer_source_similarity embed answer docs =
        round3 (docs.foldl
          (fun m doc => max m (dot (embed answer) (embed doc.page_content))) 0)) ∧
    0 ≤ compute_answer_source_similarity embed answer docs ∧
    compute_answer_source_similarity embed answer docs ≤ 1 := by
  have hdotle : ∀ d : Document, dot (embed answer) (embed d.page_content) ≤ 1 :=
    fun d => dot_le_one (hunit answer) (hunit d.page_content)
  have hmax := foldl_max_bounds
    (fun doc => dot (embed answer) (embed doc.page_content)) hdotle docs 0
    (le_refl 0) zero_le_one
  refine ⟨?_, ?_, ?_, ?_, ?_⟩
  · intro h
    subst h
    simp [compute_answer_source_similarity]
  · intro h
    simp [compute_answer_source_similarity, h]
  · intro hne hb
    unfold compute_answer_source_similarity
    rw [if_neg (by simp [hb, hne])]
    simp only []
    rw [foldl_simstep_eq_max (fun doc => dot (embed answer) (embed doc.page_content)) docs 0]
  · unfold compute_answer_source_similarity
    by_cases h : docs.isEmpty = true ∨ isBlank answer = true
    · rw [if_pos h]
    · rw [if_neg h]
      simp only []
      rw [foldl_simstep_eq_max (fun doc => dot (embed answer) (embed doc.page_content)) docs 0]
      exact round3_nonneg hmax.1
  · unfold compute_answer_source_similarity
    by_cases h : docs.isEmpty = true ∨ isBlank answer = true
    · rw [if_pos h]; norm_num
    · rw [if_neg h]
      simp only []
      rw [foldl_simstep_eq_max (fun doc => dot (embed answer) (embed doc.page_content)) docs 0]
      exact round3_le_one hmax.2

/-- C8 amended witness: answer embedding `[1]` against chunks embedding
`[-1]` (all unit vectors). -/
theorem grounding_verifier_amended_witness :
    (∀ s, dot (embedNeg s) (embedNeg s) ≤ 1) ∧
    ([docNeg] ≠ ([] : List Document) → isBlank "ans" = false →
      compute_answer_source_similarity embedNeg "ans" [docNeg] =
        round3 ([docNeg].foldl
          (fun m doc => max m (dot (embedNeg "ans") (embedNeg doc.page_content))) 0)) ∧
    0 ≤ compute_answer_source_similarity embedNeg "ans" [docNeg] ∧
    compute_answer_source_similarity embedNeg "ans" [docNeg] ≤ 1 := by
  have hunit : ∀ s, dot (embedNeg s) (embedNeg s) ≤ 1 := by
    intro s
    unfold embedNeg
    by_cases h : s = "ans" <;> simp [h, dot]
  have h := grounding_verifier_amended embedNeg "ans" [docNeg] hunit
  exact ⟨hunit, h.2.2.1, h.2.2.2.1, h.2.2.2.2⟩

/-! ## C2: path-independent top similarity -/

/-- C2: the retrieval step returns both the ranked documents and a
`top_similarity`; the similarity is computed by re-querying the dense
index with `k = 1` and normalizing the nearest distance as `1 / (1 + d)`,
so its value is identical whichever fusion path (hybrid or dense-only)
produced the documents, and it is 0 when the index is empty. -/
theorem top_similarity_path_independent (cfg : HybridSearchConfig)
    (denseSearch : ℕ → List Document)
    (denseSearchWithScore : ℕ → List (Document × ℚ))
    (bm25_retriever : Option (String → List Document))
    (query : String) (k : ℕ) :
    (∀ uh1 uh2 : Bool,
      (retrieve_multimodal_with_similarity cfg denseSearch denseSearchWithScore
        bm25_retriever query k uh1).2 =
      (retrieve_multimodal_with_similarity cfg denseSearch denseSearchWithScore
        bm25_retriever query k uh2).2) ∧
    (∀ (d : Document) (dist : ℚ) (rest : List (Document × ℚ)) (uh : Bool),
      denseSearchWithScore 1 = (d, dist) :: rest →
      (retrieve_multimodal_with_similarity cfg denseSearch denseSearchWithScore
        bm25_retriever query k uh).2 = normalize_similarity dist) ∧
    (∀ uh : Bool, denseSearchWithScore 1 = [] →
      (retrieve_multimodal_with_similarity cfg denseSearch denseSearchWithScore
        bm25_retriever query k uh).2 = 0) ∧
    (∀ uh : Bool,
      (retrieve_multimodal_with_similarity cfg denseSearch denseSearchWithScore
        bm25_retriever query k uh).1 =
      hybrid_retrieve_multimodal cfg denseSearch bm25_retriever query k uh) := by
  refine ⟨fun uh1 uh2 => rfl, ?_, ?_, fun uh => rfl⟩
  · intro d dist rest uh h
    unfold retrieve_multimodal_with_similarity
    rw [h]
  · intro uh h
    unfold retrieve_multimodal_with_similarity
    rw [h]

/-- Text and image documents used by concrete witnesses. -/
def docT : Document := ⟨"t1", "text", 1⟩

def docI : Document := ⟨"i1", "image", 2⟩

def denseScoredW : ℕ → List (Document × ℚ) := fun _ => [(docT, 1 / 4)]

def denseW : ℕ → List Document := fun n => List.replicate n docI

/-- C2 witness: with a nearest dense neighbor at distance `1/4`, both the
hybrid and dense-only paths report `top_similarity = 1 / (1 + 1/4)`. -/
theorem top_similarity_path_independent_witness :
    (retrieve_multimodal_with_similarity {} denseW denseScoredW none "q" 5 true).2 =
      (retrieve_multimodal_with_similarity {} denseW denseScoredW none "q" 5 false).2 ∧
    (retrieve_multimodal_with_similarity {} denseW denseScoredW none "q" 5 true).2 =
      normalize_similarity (1 / 4) :=
  ⟨(top_similarity_path_independent {} denseW denseScoredW none "q" 5).1 true false,
   (top_similarity_path_independent {} denseW denseScoredW none "q" 5).2.1
     docT (1 / 4) [] true rfl⟩

/-! ## C5: persistence load -/

/-- C5: `load_index` returns `None` exactly when the snapshot is missing
or its deserialization fails (failures are caught, not propagated); on
success the BM25 retriever is rebuilt from exactly the text chunks of the
deserialized docstore — through the same construction ingestion uses — and
the image map is loaded (empty when absent on disk). -/
theorem load_index_spec (disk : String → SnapshotState)
    (bm25_from_documents : List Document → String → List Document)
    (slot : String) :
    (load_index disk bm25_from_documents slot = none ↔
      disk slot = SnapshotState.missing ∨ disk slot = SnapshotState.corrupt) ∧
    (∀ (docs : List Document) (images : Option (List (String × String))),
      disk slot = SnapshotState.ok docs images →
      load_index disk bm25_from_documents slot =
        some { faiss_docs := docs
               bm25_retriever := create_bm25_retriever bm25_from_documents
                 (docs.filter (fun d => d.metaType = "text"))
               image_data_store := images.getD [] }) := by
  constructor
  · cases hd : disk slot <;> simp [load_index, hd]
  · intro docs images hd
    simp [load_index, hd, create_bm25_retriever]

/-- A BM25 builder stub used by concrete witnesses (the builder is an
external collaborator). -/
def bm25W : List Document → String → List Document := fun docs _ => docs

/-- The disk oracle for the C5 witness: the `standard` slot holds a
snapshot with one text and one image chunk, every other slot is empty. -/
def diskW : String → SnapshotState := fun s =>
  if s = "standard" then SnapshotState.ok [docT, docI] (some [("img1", "beefcafe")])
  else SnapshotState.missing

/-- C5 witness: a missing slot loads as `none`; the populated slot loads
with the BM25 retriever rebuilt from the docstore text chunks and the
stored image map. -/
theorem load_index_spec_witness :
    (load_index diskW bm25W "agentic" = none ↔
      diskW "agentic" = SnapshotState.missing ∨
      diskW "agentic" = SnapshotState.corrupt) ∧
    load_index diskW bm25W "standard" =
      some { faiss_docs := [docT, docI]
             bm25_retriever := create_bm25_retriever bm25W
               ([docT, docI].filter (fun d => d.metaType = "text"))
             image_data_store :=
               (some [("img1", "beefcafe")]).getD [] } :=
  ⟨(load_index_spec diskW bm25W "agentic").1,
   (load_index_spec diskW bm25W "standard").2 [docT, docI]
     (some [("img1", "beefcafe")]) (by simp [diskW])⟩

/-! ## C6: dense-only fallback for a text-free corpus -/

/-- C6: for a corpus with zero text chunks the BM25 build returns `None`,
and querying with `use_hybrid = true` produces exactly the same result as
`use_hybrid = false`: both reduce to dense-only retrieval, so the absent
lexical index is never consulted. -/
theorem empty_corpus_dense_fallback (cfg : HybridSearchConfig)
    (denseSearch : ℕ → List Document)
    (bm25_from_documents : List Document → String → List Document)
    (text_docs : List Document) (query : String) (k : ℕ)
    (h : text_docs = []) :
    create_bm25_retriever bm25_from_documents text_docs = none ∧
    hybrid_retrieve_multimodal cfg denseSearch
      (create_bm25_retriever bm25_from_documents text_docs) query k true =
    hybrid_retrieve_multimodal cfg denseSearch
      (create_bm25_retriever bm25_from_documents text_docs) query k false ∧
    ∀ uh : Bool,
      hybrid_retrieve_multimodal cfg denseSearch
        (create_bm25_retriever bm25_from_documents text_docs) query k uh =
      retrieve_dense_only denseSearch k := by
  subst h
  have hc : create_bm25_retriever bm25_from_documents ([] : List Document) = none := rfl
  have hall : ∀ uh : Bool,
      hybrid_retrieve_multimodal cfg denseSearch none query k uh =
        retrieve_dense_only denseSearch k := by
    intro uh
    unfold hybrid_retrieve_multimodal
    by_cases hcond : (uh && cfg.HYBRID_SEARCH_ENABLED) = true
    · rw [if_pos hcond]; rfl
    · rw [if_neg hcond]
  refine ⟨hc, ?_, ?_⟩
  · rw [hc, hall true, hall false]
  · intro uh
    rw [hc]
    exact hall uh

/-- C6 witness: empty text corpus, hybrid flag on versus off. -/
theorem empty_corpus_dense_fallback_witness :
    create_bm25_retriever bm25W ([] : List Document) = none ∧
    hybrid_retrieve_multimodal {} denseW (create_bm25_retriever bm25W []) "q" 3 true =
      hybrid_retrieve_multimodal {} denseW (create_bm25_retriever bm25W []) "q" 3 false :=
  ⟨(empty_corpus_dense_fallback {} denseW bm25W [] "q" 3 rfl).1,
   (empty_corpus_dense_fallback {} denseW bm25W [] "q" 3 rfl).2.1⟩

/-! ## C9: fusion bound -/

/-- C9: the hybrid result never exceeds `k` documents, and reaches
exactly `k` whenever at least `k` distinct chunks (by deduplication key)
exist across the lexical and dense candidate lists; the dense-only path
also respects the bound whenever the dense index returns at most the
requested number of neighbors. -/
theorem fusion_bound (cfg : HybridSearchConfig)
    (denseSearch : ℕ → List Document) (bm25 : String → List Document)
    (query : String) (k : ℕ) :
    (retrieve_hybrid cfg denseSearch (some bm25) query k).length ≤ k ∧
    (k ≤ (uniqueByKey dedup_key
        (bm25 query ++ denseSearch cfg.K_DENSE_CANDIDATES)).length →
      (retrieve_hybrid cfg denseSearch (some bm25) query k).length = k) ∧
    ((∀ n, (denseSearch n).length ≤ n) →
      (retrieve_dense_only denseSearch k).length ≤ k) := by
  have hlen : (retrieve_hybrid cfg denseSearch (some bm25) query k).length =
      min k (uniqueByKey dedup_key
        (bm25 query ++ denseSearch cfg.K_DENSE_CANDIDATES)).length := by
    unfold retrieve_hybrid weighted_reciprocal_rank
    simp [List.length_take, List.length_insertionSort]
  refine ⟨?_, ?_, ?_⟩
  · rw [hlen]
    exact min_le_left _ _
  · intro hk
    rw [hlen]
    exact min_eq_left hk
  · intro hd
    exact hd k

/-- The lexical candidates for the C9 witness. -/
def bm25L : String → List Document := fun _ => [docT]

/-- C9 witness: one lexical candidate and ten (identical) dense
candidates give two distinct chunks, so a query with `k = 2` returns
exactly 2 documents, and the dense-only path respects the bound. -/
theorem fusion_bound_witness :
    (retrieve_hybrid {} denseW (some bm25L) "q" 2).length ≤ 2 ∧
    (retrieve_hybrid {} denseW (some bm25L) "q" 2).length = 2 ∧
    (retrieve_dense_only denseW 2).length ≤ 2 :=
  ⟨(fusion_bound {} denseW bm25L "q" 2).1,
   (fusion_bound {} denseW bm25L "q" 2).2.1 (by
     norm_num +decide [bm25L, denseW, uniqueByKey, dedup_key, docT, docI,
       List.filter_cons, List.replicate]),
   (fusion_bound {} denseW bm25L "q" 2).2.2 (by
     intro n
     simp [denseW])⟩

/-! ## C3: reciprocal rank fusion (corrected) -/

theorem orderedInsert_congr {α : Type} {r s : α → α → Prop}
    [DecidableRel r] [DecidableRel s] (h : ∀ a b, r a b ↔ s a b) (a : α) :
    ∀ l : List α, List.orderedInsert r a l = List.orderedInsert s a l
  | [] => rfl
  | b :: l => by
      simp only [List.orderedInsert]
      by_cases hr : r a b
      · rw [if_pos hr, if_pos ((h a b).mp hr)]
      · rw [if_neg hr, if_neg (fun hs => hr ((h a b).mpr hs)),
          orderedInsert_congr h a l]

theorem insertionSort_congr {α : Type} {r s : α → α → Prop}
    [DecidableRel r] [DecidableRel s] (h : ∀ a b, r a b ↔ s a b) :
    ∀ l : List α, List.insertionSort r l = List.insertionSort s l
  | [] => rfl
  | b :: l => by
      simp only [List.insertionSort]
      rw [insertionSort_congr h l, orderedInsert_congr h b]

theorem rrf_list_score_of_not_mem (c w : ℚ) (k : String) :
    ∀ (l : List Document) (r : ℕ), (∀ e ∈ l, dedup_key e ≠ k) →
      rrf_list_score c w k l r = 0
  | [], _, _ => rfl
  | d :: ds, r, h => by
      simp only [rrf_list_score]
      rw [if_neg (h d (List.mem_cons_self d ds)),
        rrf_list_score_of_not_mem c w k ds (r + 1)
          (fun e he => h e (List.mem_cons_of_mem d he))]
      norm_num

theorem rrf_list_score_eq_findIdx (c w : ℚ) (k : String) :
    ∀ (l : List Document) (r : ℕ),
      l.Pairwise (fun a b => dedup_key a ≠ dedup_key b) →
      rrf_list_score c w k l r =
        match l.findIdx? (fun e => dedup_key e == k) r with
        | some i => w / (c + (i : ℚ) + 1)
        | none => 0
  | [], r, _ => rfl
  | d :: ds, r, hp => by
      simp only [rrf_list_score, List.findIdx?_cons]
      by_cases hk : dedup_key d = k
      · rw [if_pos hk, if_pos (by simp [hk]),
          rrf_list_score_of_not_mem c w k ds (r + 1)
            (fun e he heq =>
              ((List.pairwise_cons.mp hp).1 e he) (hk.trans heq.symm))]
        norm_num
      · rw [if_neg hk, if_neg (by simp [hk]),
          rrf_list_score_eq_findIdx c w k ds (r + 1)
            (List.pairwise_cons.mp hp).2]
        norm_num

theorem rrf_score_pair (c w1 w2 : ℚ) (l1 l2 : List Document) (k : String) :
    rrf_score c [(w1, l1), (w2, l2)] k =
      rrf_list_score c w1 k l1 0 + rrf_list_score c w2 k l2 0 := by
  simp [rrf_score]

/-- Under per-list key distinctness, the fused score the modelled
ensemble fusion computes agrees with the score the claim words describe,
for every chunk. -/
theorem rrf_score_eq_spec (rrf_k : ℕ) (w1 w2 : ℚ) (lex dense : List Document)
    (hlex : lex.Pairwise (fun a b => dedup_key a ≠ dedup_key b))
    (hdense : dense.Pairwise (fun a b => dedup_key a ≠ dedup_key b))
    (d : Document) :
    rrf_score (rrf_k : ℚ) [(w1, lex), (w2, dense)] (dedup_key d) =
      spec_fused_score rrf_k w1 w2 lex dense d := by
  rw [rrf_score_pair,
    rrf_list_score_eq_findIdx (rrf_k : ℚ) w1 (dedup_key d) lex 0 hlex,
    rrf_list_score_eq_findIdx (rrf_k : ℚ) w2 (dedup_key d) dense 0 hdense]
  rfl

/-- C3 counterexample inputs: three chunks with distinct contents.  The
lexical list is `[docA]`, the dense list `[docC, docB]`, and the
configuration sets `RRF_K_CONSTANT = 0`. -/
def docA : Document := ⟨"alpha", "text", 1⟩

def docB : Document := ⟨"beta", "text", 2⟩

def docC : Document := ⟨"gamma", "text", 3⟩

def cfgRRF0 : HybridSearchConfig := { RRF_K_CONSTANT := 0 }

def bm25C : String → List Document := fun _ => [docA]

def denseC : ℕ → List Document := fun _ => [docC, docB]

/-- C3 counterexample: with `RRF_K_CONSTANT = 0` (default weights
0.4/0.6), the claimed scores are A: 0.4, C: 0.6, B: 0.3, so the claim
predicts the order `[C, A, B]`; the code never passes `RRF_K_CONSTANT` to
the fusion, which runs at the library default 60 and produces
`[C, B, A]` (scores A: 0.4/61, C: 0.6/61, B: 0.6/62). -/
theorem rrf_constant_counterexample :
    retrieve_hybrid cfgRRF0 denseC (some bm25C) "q" 5 = [docC, docB, docA] ∧
    spec_claimed_hybrid cfgRRF0 (bm25C "q")
      (denseC cfgRRF0.K_DENSE_CANDIDATES) 5 = [docC, docA, docB] ∧
    retrieve_hybrid cfgRRF0 denseC (some bm25C) "q" 5 ≠
      spec_claimed_hybrid cfgRRF0 (bm25C "q")
        (denseC cfgRRF0.K_DENSE_CANDIDATES) 5 := by
  refine ⟨?_, ?_, ?_⟩
  · norm_num +decide [retrieve_hybrid, weighted_reciprocal_rank, uniqueByKey,
      rrf_score, rrf_list_score, dedup_key, docA, docB, docC, cfgRRF0, bm25C, denseC,
      List.insertionSort, List.orderedInsert, List.filter_cons]
  · norm_num +decide [spec_claimed_hybrid, uniqueByKey, spec_fused_score, rank_in,
      dedup_key, docA, docB, docC, cfgRRF0, bm25C, denseC,
      List.insertionSort, List.orderedInsert, List.filter_cons, List.findIdx?]
  · norm_num +decide [retrieve_hybrid, weighted_reciprocal_rank, uniqueByKey,
      rrf_score, rrf_list_score, spec_claimed_hybrid, spec_fused_score, rank_in,
      dedup_key, docA, docB, docC, cfgRRF0, bm25C, denseC,
      List.insertionSort, List.orderedInsert, List.filter_cons, List.findIdx?]

/-- C3 amended: when the candidate lists carry no duplicate keys, every
distinct chunk receives the fused score
`Σ_over_lists weight(list) / (RRF_K + rank_in_list + 1)` with 0-based
ranks and absent lists contributing 0, the distinct chunks are sorted by
that score descending and the top `k` returned — but with `RRF_K` fixed at
the fusion library default 60: the configured `RRF_K_CONSTANT` is never
passed to the fusion, so the result is independent of it. -/
theorem rrf_fusion_amended (cfg : HybridSearchConfig)
    (denseSearch : ℕ → List Document) (bm25 : String → List Document)
    (query : String) (k : ℕ)
    (hlex : (bm25 query).Pairwise (fun a b => dedup_key a ≠ dedup_key b))
    (hdense : (denseSearch cfg.K_DENSE_CANDIDATES).Pairwise
      (fun a b => dedup_key a ≠ dedup_key b)) :
    retrieve_hybrid cfg denseSearch (some bm25) query k =
      spec_claimed_hybrid { cfg with RRF_K_CONSTANT := 60 }
        (bm25 query) (denseSearch cfg.K_DENSE_CANDIDATES) k ∧
    (retrieve_hybrid cfg denseSearch (some bm25) query k).Pairwise
      (fun a b =>
        spec_fused_score 60 cfg.BM25_WEIGHT cfg.DENSE_WEIGHT
          (bm25 query) (denseSearch cfg.K_DENSE_CANDIDATES) b ≤
        spec_fused_score 60 cfg.BM25_WEIGHT cfg.DENSE_WEIGHT
          (bm25 query) (denseSearch cfg.K_DENSE_CANDIDATES) a) ∧
    ∀ rk : ℕ,
      retrieve_hybrid { cfg with RRF_K_CONSTANT := rk } denseSearch
        (some bm25) query k =
      retrieve_hybrid cfg denseSearch (some bm25) query k := by
  have h60 : ((60 : ℕ) : ℚ) = (60 : ℚ) := by norm_num
  have hiff : ∀ a b : Document,
      (rrf_score 60 [(cfg.BM25_WEIGHT, bm25 query),
        (cfg.DENSE_WEIGHT, denseSearch cfg.K_DENSE_CANDIDATES)] (dedup_key b) ≤
       rrf_score 60 [(cfg.BM25_WEIGHT, bm25 query),
        (cfg.DENSE_WEIGHT, denseSearch cfg.K_DENSE_CANDIDATES)] (dedup_key a)) ↔
      (spec_fused_score 60 cfg.BM25_WEIGHT cfg.DENSE_WEIGHT
        (bm25 query) (denseSearch cfg.K_DENSE_CANDIDATES) b ≤
       spec_fused_score 60 cfg.BM25_WEIGHT cfg.DENSE_WEIGHT
        (bm25 query) (denseSearch cfg.K_DENSE_CANDIDATES) a) := by
    intro a b
    rw [← h60,
      rrf_score_eq_spec 60 cfg.BM25_WEIGHT cfg.DENSE_WEIGHT _ _ hlex hdense a,
      rrf_score_eq_spec 60 cfg.BM25_WEIGHT cfg.DENSE_WEIGHT _ _ hlex hdense b]
  have himpl : retrieve_hybrid cfg denseSearch (some bm25) query k =
      (List.insertionSort
        (fun a b =>
          rrf_score 60 [(cfg.BM25_WEIGHT, bm25 query),
            (cfg.DENSE_WEIGHT, denseSearch cfg.K_DENSE_CANDIDATES)] (dedup_key b) ≤
          rrf_score 60 [(cfg.BM25_WEIGHT, bm25 query),
            (cfg.DENSE_WEIGHT, denseSearch cfg.K_DENSE_CANDIDATES)] (dedup_key a))
        (uniqueByKey dedup_key
          (bm25 query ++ denseSearch cfg.K_DENSE_CANDIDATES))).take k := by
    unfold retrieve_hybrid weighted_reciprocal_rank
    simp [List.zip, List.zipWith, List.append_nil]
  refine ⟨?_, ?_, fun rk => rfl⟩
  · rw [himpl]
    unfold spec_claimed_hybrid
    rw [insertionSort_congr hiff]
  · rw [himpl]
    haveI : IsTotal Document
        (fun a b : Document =>
          rrf_score 60 [(cfg.BM25_WEIGHT, bm25 query),
            (cfg.DENSE_WEIGHT, denseSearch cfg.K_DENSE_CANDIDATES)] (dedup_key b) ≤
          rrf_score 60 [(cfg.BM25_WEIGHT, bm25 query),
            (cfg.DENSE_WEIGHT, denseSearch cfg.K_DENSE_CANDIDATES)] (dedup_key a)) :=
      ⟨fun a b => le_total _ _⟩
    haveI : IsTrans Document
        (fun a b : Document =>
          rrf_score 60 [(cfg.BM25_WEIGHT, bm25 query),
            (cfg.DENSE_WEIGHT, denseSearch cfg.K_DENSE_CANDIDATES)] (dedup_key b) ≤
          rrf_score 60 [(cfg.BM25_WEIGHT, bm25 query),
            (cfg.DENSE_WEIGHT, denseSearch cfg.K_DENSE_CANDIDATES)] (dedup_key a)) :=
      ⟨fun _ _ _ hab hbc => le_trans hbc hab⟩
    have hsorted := List.sorted_insertionSort
      (fun a b : Document =>
        rrf_score 60 [(cfg.BM25_WEIGHT, bm25 query),
          (cfg.DENSE_WEIGHT, denseSearch cfg.K_DENSE_CANDIDATES)] (dedup_key b) ≤
        rrf_score 60 [(cfg.BM25_WEIGHT, bm25 query),
          (cfg.DENSE_WEIGHT, denseSearch cfg.K_DENSE_CANDIDATES)] (dedup_key a))
      (uniqueByKey dedup_key (bm25 query ++ denseSearch cfg.K_DENSE_CANDIDATES))
    exact ((hsorted.imp (fun hab => (hiff _ _).mp hab)).sublist
      (List.take_sublist k _))

/-- C3 amended witness: lexical candidates `[docA, docB]` and dense
candidates `[docB, docC]` (no duplicate keys inside either list). -/
def bm25C2 : String → List Document := fun _ => [docA, docB]

def denseC2 : ℕ → List Document := fun _ => [docB, docC]

theorem rrf_fusion_amended_witness :
    retrieve_hybrid {} denseC2 (some bm25C2) "q" 5 =
      spec_claimed_hybrid
        { ({} : HybridSearchConfig) with RRF_K_CONSTANT := 60 }
        (bm25C2 "q") (denseC2 ({} : HybridSearchConfig).K_DENSE_CANDIDATES) 5 ∧
    retrieve_hybrid
        { ({} : HybridSearchConfig) with RRF_K_CONSTANT := 7 } denseC2
        (some bm25C2) "q" 5 =
      retrieve_hybrid {} denseC2 (some bm25C2) "q" 5 :=
  ⟨(rrf_fusion_amended {} denseC2 bm25C2 "q" 5
      (by norm_num +decide [bm25C2, dedup_key, docA, docB])
      (by norm_num +decide [denseC2, dedup_key, docB, docC])).1,
   (rrf_fusion_amended {} denseC2 bm25C2 "q" 5
      (by norm_num +decide [bm25C2, dedup_key, docA, docB])
      (by norm_num +decide [denseC2, dedup_key, docB, docC])).2.2 7⟩

end OmniHelp
